import Mathlib

/-!
Shallow embedding of the terraform-provider-nsxt-intervlan-routing repository
(Go). The embedding covers:

* the REST client package (`client`): data structures, the JSON encoding used
  for the PATCH body, request builders, the request-editor pipeline and the
  four segment-port operations;
* the Terraform provider package (`provider`): configuration resolution, the
  login-response handling, the resource and data-source CRUD adapters, and the
  resource/data-source registries.

HTTP dispatch is modelled by passing an explicit `Doer` function
(`Request → Except String Response`), mirroring the Go `HttpRequestDoer`
interface; the `Except.error` case stands for a non-nil Go `error`.  Response
bodies are modelled as already-tokenised JSON values (`Json`), so a decode
failure in the model corresponds to a shape/type mismatch in
`encoding/json.Decoder.Decode`.
-/

namespace NsxtIvr

/-- Abstract JSON values, the interface between the Go structs and the wire
body produced by `json.Marshal` / consumed by `json.Decoder.Decode`. -/
inductive Json where
  | null
  | bool (b : Bool)
  | num (n : Int)
  | str (s : String)
  | arr (elems : List Json)
  | obj (fields : List (String × Json))

/-- Field lookup in a JSON object (first binding wins); `none` on non-objects
or missing keys. -/
def Json.lookupField : Json → String → Option Json
  | .obj fields, key => fields.lookup key
  | _, _ => none

/-- Go struct `client.PortAddressBindingEntry` (json tags `ip_address`,
`mac_address`, `vlan_id`). -/
structure PortAddressBindingEntry where
  ipAddress : String
  macAddress : String
  vlanId : String

/-- Go struct `client.PortAttachment`. -/
structure PortAttachment where
  allocateAddresses : String
  appId : String
  contextId : String
  id : String
  trafficTag : String
  type : String

/-- Go struct `client.SegmentPort`.  Note that `AddressBindings` is a single
`PortAddressBindingEntry` in the source, not a slice. -/
structure SegmentPort where
  addressBindings : PortAddressBindingEntry
  adminState : String
  attachment : PortAttachment
  description : String
  displayName : String
  id : String
  resourceType : String

/-- Go struct `client.PatchSegmentPortRequest`. -/
structure PatchSegmentPortRequest where
  segmentId : String
  portId : String
  segmentPort : SegmentPort

/-- Go struct `client.ListSegmentPortsResponse`. -/
structure ListSegmentPortsResponse where
  resultCount : Int
  results : List SegmentPort

/-- Zero value of `PortAddressBindingEntry` (Go zero struct). -/
def PortAddressBindingEntry.zero : PortAddressBindingEntry := ⟨"", "", ""⟩

/-- Zero value of `PortAttachment` (Go zero struct). -/
def PortAttachment.zero : PortAttachment := ⟨"", "", "", "", "", ""⟩

/-- Zero value of `SegmentPort` (Go zero struct). -/
def SegmentPort.zero : SegmentPort :=
  ⟨PortAddressBindingEntry.zero, "", PortAttachment.zero, "", "", "", ""⟩

/-- The `json.Marshal` encoding of `PortAddressBindingEntry`: fields in Go
declaration order under their json tags. -/
def PortAddressBindingEntry.toJson (b : PortAddressBindingEntry) : Json :=
  .obj [("ip_address", .str b.ipAddress),
        ("mac_address", .str b.macAddress),
        ("vlan_id", .str b.vlanId)]

/-- The `json.Marshal` encoding of `PortAttachment`. -/
def PortAttachment.toJson (a : PortAttachment) : Json :=
  .obj [("allocate_addresses", .str a.allocateAddresses),
        ("app_id", .str a.appId),
        ("context_id", .str a.contextId),
        ("id", .str a.id),
        ("traffic_tag", .str a.trafficTag),
        ("type", .str a.type)]

/-- The `json.Marshal` encoding of `SegmentPort`.  The `address_bindings`
field is encoded from the single embedded `PortAddressBindingEntry`, so it is
always a JSON object, never an array. -/
def SegmentPort.toJson (p : SegmentPort) : Json :=
  .obj [("address_bindings", p.addressBindings.toJson),
        ("admin_state", .str p.adminState),
        ("attachment", p.attachment.toJson),
        ("description", .str p.description),
        ("display_name", .str p.displayName),
        ("id", .str p.id),
        ("resource_type", .str p.resourceType)]

/-- Unmarshalling of a JSON value into a Go `string` field: an absent field or
JSON `null` leaves the zero value, a string is taken verbatim, and any other
JSON type is an unmarshal error.  (Field names are matched exactly; the Go
case-insensitive fallback is not exercised by this code base.) -/
def decodeGoString : Option Json → Option String
  | none => some ""
  | some .null => some ""
  | some (.str s) => some s
  | some _ => none

/-- Unmarshalling of `PortAddressBindingEntry` from a JSON value (`null`
leaves the zero struct, a non-object is an unmarshal error). -/
def PortAddressBindingEntry.fromJson : Json → Option PortAddressBindingEntry
  | .null => some PortAddressBindingEntry.zero
  | .obj fields => do
      let ip ← decodeGoString ((Json.obj fields).lookupField "ip_address")
      let mac ← decodeGoString ((Json.obj fields).lookupField "mac_address")
      let vlan ← decodeGoString ((Json.obj fields).lookupField "vlan_id")
      some ⟨ip, mac, vlan⟩
  | _ => none

/-- Unmarshalling of `PortAttachment` from a JSON value. -/
def PortAttachment.fromJson : Json → Option PortAttachment
  | .null => some PortAttachment.zero
  | .obj fields => do
      let alloc ← decodeGoString ((Json.obj fields).lookupField "allocate_addresses")
      let app ← decodeGoString ((Json.obj fields).lookupField "app_id")
      let ctx ← decodeGoString ((Json.obj fields).lookupField "context_id")
      let id ← decodeGoString ((Json.obj fields).lookupField "id")
      let tag ← decodeGoString ((Json.obj fields).lookupField "traffic_tag")
      let ty ← decodeGoString ((Json.obj fields).lookupField "type")
      some ⟨alloc, app, ctx, id, tag, ty⟩
  | _ => none

/-- Unmarshalling of a struct-typed field: absent or `null` leaves the zero
struct. -/
def decodeBindingField : Option Json → Option PortAddressBindingEntry
  | none => some PortAddressBindingEntry.zero
  | some v => PortAddressBindingEntry.fromJson v

/-- Unmarshalling of the attachment field: absent or `null` leaves the zero
struct. -/
def decodeAttachmentField : Option Json → Option PortAttachment
  | none => some PortAttachment.zero
  | some v => PortAttachment.fromJson v

/-- Unmarshalling of `SegmentPort` from a JSON value. -/
def SegmentPort.fromJson : Json → Option SegmentPort
  | .null => some SegmentPort.zero
  | .obj fields => do
      let b ← decodeBindingField ((Json.obj fields).lookupField "address_bindings")
      let adm ← decodeGoString ((Json.obj fields).lookupField "admin_state")
      let att ← decodeAttachmentField ((Json.obj fields).lookupField "attachment")
      let desc ← decodeGoString ((Json.obj fields).lookupField "description")
      let dn ← decodeGoString ((Json.obj fields).lookupField "display_name")
      let id ← decodeGoString ((Json.obj fields).lookupField "id")
      let rt ← decodeGoString ((Json.obj fields).lookupField "resource_type")
      some ⟨b, adm, att, desc, dn, id, rt⟩
  | _ => none

/-- Unmarshalling of a Go `int` field: absent or `null` leaves 0. -/
def decodeGoInt : Option Json → Option Int
  | none => some 0
  | some .null => some 0
  | some (.num n) => some n
  | some _ => none

/-- Unmarshalling of a `[]SegmentPort` field: absent or `null` leaves the nil
slice, an array decodes element-wise, anything else is an unmarshal error. -/
def decodeSegmentPortSlice : Option Json → Option (List SegmentPort)
  | none => some []
  | some .null => some []
  | some (.arr elems) => elems.mapM SegmentPort.fromJson
  | some _ => none

/-- Unmarshalling of `ListSegmentPortsResponse` from a JSON value. -/
def ListSegmentPortsResponse.fromJson : Json → Option ListSegmentPortsResponse
  | .null => some ⟨0, []⟩
  | .obj fields => do
      let n ← decodeGoInt ((Json.obj fields).lookupField "result_count")
      let rs ← decodeSegmentPortSlice ((Json.obj fields).lookupField "results")
      some ⟨n, rs⟩
  | _ => none

/-- Resolved request URL.  It stands for `serverURL.Parse(operationPath)` in
the Go builders; the base/path pair is kept abstract because no claim depends
on the textual form of the resolved URL (the `url.Parse` error paths, which
return before any header is attached, are not modelled). -/
structure UrlRef where
  base : String
  path : String

/-- Model of `*http.Request` as far as this code base manipulates it: method,
resolved URL, the basic-auth credential pair installed by `SetBasicAuth`
(standing for the `Authorization` header), other headers added via
`Header.Add`, and the JSON body, if any. -/
structure Request where
  method : String
  url : UrlRef
  basicAuth : Option (String × String)
  headers : List (String × String)
  body : Option Json

/-- Model of `*http.Response`: status code, status text and the (already
tokenised) JSON body. -/
structure Response where
  statusCode : Nat
  status : String
  body : Json

/-- Go `client.RequestEditorFn`: the editor may mutate the request (modelled
by returning the new request) or fail with a non-nil error. -/
def RequestEditorFn : Type := Request → Except String Request

/-- Go `client.HttpRequestDoer.Do`: dispatch one request, returning either a
non-nil error or a response. -/
def Doer : Type := Request → Except String Response

/-- Go struct `client.Client` (the `Client HttpRequestDoer` field is passed
separately as a `Doer` argument to the operations). -/
structure Client where
  server : String
  username : String
  password : String
  requestEditors : List RequestEditorFn

/-- Go `client.NewDeleteSegmentPortRequest`: DELETE on
`/policy/api/v1/infra/segments/{segment_id}/ports/{port_id}`, with no call to
`SetBasicAuth`. -/
def NewDeleteSegmentPortRequest (server segment_id port_id : String) : Request :=
  let operationPath :=
    "/policy/api/v1/infra/segments/" ++ segment_id ++ "/ports/" ++ port_id
  { method := "DELETE"
    url := ⟨server, operationPath⟩
    basicAuth := none
    headers := []
    body := none }

/-- Go `client.NewListSegmentPortsRequest`: GET on
`/policy/api/v1/infra/segments/{segment_id}/ports` with basic auth. -/
def NewListSegmentPortsRequest (server user pass segment_id : String) : Request :=
  let operationPath := "/policy/api/v1/infra/segments/" ++ segment_id ++ "/ports"
  { method := "GET"
    url := ⟨server, operationPath⟩
    basicAuth := some (user, pass)
    headers := []
    body := none }

/-- Go `client.NewGetSegmentPortRequest`: GET on
`/policy/api/v1/infra/segments/{segment_id}/ports/{port_id}` with basic
auth. -/
def NewGetSegmentPortRequest (server user pass segment_id port_id : String) : Request :=
  let operationPath :=
    "/policy/api/v1/infra/segments/" ++ segment_id ++ "/ports/" ++ port_id
  { method := "GET"
    url := ⟨server, operationPath⟩
    basicAuth := some (user, pass)
    headers := []
    body := none }

/-- Go `client.NewPatchSegmentPortRequest`: PATCH on the identity path, body
`json.Marshal(body.SegmentPort)`, basic auth and a `Content-Type:
application/json` header. -/
def NewPatchSegmentPortRequest (server user pass : String)
    (body : PatchSegmentPortRequest) : Request :=
  let operationPath :=
    "/policy/api/v1/infra/segments/" ++ body.segmentId ++ "/ports/" ++ body.portId
  { method := "PATCH"
    url := ⟨server, operationPath⟩
    basicAuth := some (user, pass)
    headers := [("Content-Type", "application/json")]
    body := some body.segmentPort.toJson }

/-- One `for` loop of `Client.applyEditors`: run the editors left to right,
threading the (possibly mutated) request, and stop at the first non-nil
error. -/
def runEditors : List RequestEditorFn → Request → Except String Request
  | [], req => .ok req
  | e :: rest, req =>
    match e req with
    | .error msg => .error msg
    | .ok req2 => runEditors rest req2

/-- Go `Client.applyEditors`: first the registered `RequestEditors`, then the
per-call `additionalEditors`, each loop aborting on the first error. -/
def Client.applyEditors (c : Client) (req : Request)
    (additionalEditors : List RequestEditorFn) : Except String Request :=
  match runEditors c.requestEditors req with
  | .error msg => .error msg
  | .ok req2 => runEditors additionalEditors req2

/-- Go `Client.DeleteSegmentPort`.  The first component of the result records
the requests actually handed to `c.Client.Do` (empty when an editor error
prevents dispatch); the second is the value returned by `Do`, or the editor
error. -/
def Client.deleteSegmentPort (c : Client) (doer : Doer)
    (segment_id port_id : String) (reqEditors : List RequestEditorFn) :
    List Request × Except String Response :=
  let req := NewDeleteSegmentPortRequest c.server segment_id port_id
  match c.applyEditors req reqEditors with
  | .error msg => ([], .error msg)
  | .ok req2 => ([req2], doer req2)

/-- Go `Client.ListSegmentPorts`, with the same dispatch-trace convention as
`Client.deleteSegmentPort`. -/
def Client.listSegmentPorts (c : Client) (doer : Doer)
    (segment_id : String) (reqEditors : List RequestEditorFn) :
    List Request × Except String Response :=
  let req := NewListSegmentPortsRequest c.server c.username c.password segment_id
  match c.applyEditors req reqEditors with
  | .error msg => ([], .error msg)
  | .ok req2 => ([req2], doer req2)

/-- Go `Client.GetSegmentPort`, with the same dispatch-trace convention. -/
def Client.getSegmentPort (c : Client) (doer : Doer)
    (segment_id port_id : String) (reqEditors : List RequestEditorFn) :
    List Request × Except String Response :=
  let req := NewGetSegmentPortRequest c.server c.username c.password segment_id port_id
  match c.applyEditors req reqEditors with
  | .error msg => ([], .error msg)
  | .ok req2 => ([req2], doer req2)

/-- Go `Client.PatchSegmentPort`, with the same dispatch-trace convention. -/
def Client.patchSegmentPort (c : Client) (doer : Doer)
    (body : PatchSegmentPortRequest) (reqEditors : List RequestEditorFn) :
    List Request × Except String Response :=
  let req := NewPatchSegmentPortRequest c.server c.username c.password body
  match c.applyEditors req reqEditors with
  | .error msg => ([], .error msg)
  | .ok req2 => ([req2], doer req2)

/-- One entry of the host framework diagnostics (summary and detail of an
`AddError` / `AddAttributeWarning` call). -/
structure Diagnostic where
  summary : String
  detail : String

/-- Go struct `provider.segmentPortResourceModel` (`segment_id` and `port_id`
are known non-null `types.String` values, so they are modelled by their
`ValueString()`). -/
structure SegmentPortResourceModel where
  segmentId : String
  portId : String
  segmentPort : SegmentPort

/-- Effect of a resource lifecycle call on the tracked Terraform state:
left as it was, removed (`resp.State.RemoveResource`), or replaced
(`resp.State.Set`). -/
inductive StateOutcome where
  | kept
  | removed
  | set (m : SegmentPortResourceModel)

/-- Result of one resource lifecycle call: the requests dispatched to the
server, the fatal diagnostics added, and the effect on tracked state. -/
structure OpOutput where
  trace : List Request
  errors : List Diagnostic
  state : StateOutcome

/-- Go `string(intValue)` on a status code: the UTF-8 string of that code
point (used verbatim in the Create/Update diagnostics). -/
def goStringOfCode (n : Nat) : String := String.singleton (Char.ofNat n)

/-- Stand-in for the `error` text produced by `encoding/json` on a decode
failure (no claim depends on its exact contents). -/
def jsonDecodeErrorText : String := "json: cannot unmarshal value"

/-- Go `segmentPortResource.Create` from `resource_segment_port.go`: build a
`PatchSegmentPortRequest` from the plan, call `PatchSegmentPort`, treat a
non-nil error or a status other than 200 as fatal, and otherwise persist the
plan as the new state. -/
def segmentPortResource.create (c : Client) (doer : Doer)
    (plan : SegmentPortResourceModel) : OpOutput :=
  let patchRequest : PatchSegmentPortRequest :=
    { segmentId := plan.segmentId
      portId := plan.portId
      segmentPort := plan.segmentPort }
  match c.patchSegmentPort doer patchRequest [] with
  | (trace, .error msg) =>
      { trace := trace
        errors := [⟨"Unable to Create Segment Port", msg⟩]
        state := .kept }
  | (trace, .ok spResponse) =>
      if spResponse.statusCode ≠ 200 then
        { trace := trace
          errors := [⟨"An invalid response was received. Code: " ++
                        goStringOfCode spResponse.statusCode,
                      spResponse.status⟩]
          state := .kept }
      else
        { trace := trace, errors := [], state := .set plan }

/-- Go `segmentPortResource.Read` from `resource_segment_port.go`: GET by the
identity pair held in state; a non-nil error is fatal, 404 removes the
resource from tracked state, any other non-200 status is fatal, and on 200
the body is decoded and persisted with `segment_id`/`port_id` carried over
from the prior state. -/
def segmentPortResource.read (c : Client) (doer : Doer)
    (state : SegmentPortResourceModel) : OpOutput :=
  match c.getSegmentPort doer state.segmentId state.portId [] with
  | (trace, .error msg) =>
      { trace := trace
        errors := [⟨"Unable to Read Segment Port configuration", msg⟩]
        state := .kept }
  | (trace, .ok spResponse) =>
      if spResponse.statusCode = 404 then
        { trace := trace, errors := [], state := .removed }
      else if spResponse.statusCode ≠ 200 then
        { trace := trace
          errors := [⟨"Unexpected HTTP error code received for segment port",
                      spResponse.status⟩]
          state := .kept }
      else
        match SegmentPort.fromJson spResponse.body with
        | none =>
            { trace := trace
              errors := [⟨"Invalid format received for Item", jsonDecodeErrorText⟩]
              state := .kept }
        | some newSegmentPort =>
            { trace := trace
              errors := []
              state := .set { segmentId := state.segmentId
                              portId := state.portId
                              segmentPort := newSegmentPort } }

/-- Go `segmentPortResource.Update` from `resource_segment_port.go`: the body
is line-for-line the one of `Create` (including the "Unable to Create Segment
Port" diagnostic summary). -/
def segmentPortResource.update (c : Client) (doer : Doer)
    (plan : SegmentPortResourceModel) : OpOutput :=
  let patchRequest : PatchSegmentPortRequest :=
    { segmentId := plan.segmentId
      portId := plan.portId
      segmentPort := plan.segmentPort }
  match c.patchSegmentPort doer patchRequest [] with
  | (trace, .error msg) =>
      { trace := trace
        errors := [⟨"Unable to Create Segment Port", msg⟩]
        state := .kept }
  | (trace, .ok spResponse) =>
      if spResponse.statusCode ≠ 200 then
        { trace := trace
          errors := [⟨"An invalid response was received. Code: " ++
                        goStringOfCode spResponse.statusCode,
                      spResponse.status⟩]
          state := .kept }
      else
        { trace := trace, errors := [], state := .set plan }

/-- Go `segmentPortResource.Delete` from `resource_segment_port.go`: DELETE
by the identity pair in state; only a non-nil error is reported (the host
framework, not this code, removes the state afterwards). -/
def segmentPortResource.delete (c : Client) (doer : Doer)
    (state : SegmentPortResourceModel) : OpOutput :=
  match c.deleteSegmentPort doer state.segmentId state.portId [] with
  | (trace, .error msg) =>
      { trace := trace
        errors := [⟨"Unable to Delete Item", msg⟩]
        state := .kept }
  | (trace, .ok _) =>
      { trace := trace, errors := [], state := .kept }

/-- Go struct `provider.SegmentPort` from `common_types.go` (the tfsdk-side
mirror of `client.SegmentPort`; `AddressBindings` is again a single entry). -/
structure ProviderSegmentPort where
  addressBindings : PortAddressBindingEntry
  adminState : String
  attachment : PortAttachment
  description : String
  displayName : String
  id : String
  resourceType : String

/-- Go struct `provider.segmentPortsDataSourceModel`. -/
structure SegmentPortsDataSourceModel where
  segmentId : String
  segmentPorts : List ProviderSegmentPort

/-- Result of the data-source Read: dispatched requests, fatal diagnostics,
and the state persisted via `resp.State.Set` (`none` when the call aborted
before persisting). -/
structure DsReadOutput where
  trace : List Request
  errors : List Diagnostic
  state : Option SegmentPortsDataSourceModel

/-- Go `segmentPortsDataSource.Read` from the data-source file: list by the
configured segment id, treat a non-nil error, a non-200 status or a decode
failure as fatal, and otherwise rebuild the model.  The source resets the
model with `state = segmentPortsDataSourceModel{}` and then runs
`state.SegmentId = state.SegmentId`, a self-assignment that copies the
freshly zeroed field, so the persisted `segment_id` is always the empty
string; the loop over `segmentPorts.Results` copies every field except
`ResourceType`, which keeps its zero value. -/
def segmentPortsDataSource.read (c : Client) (doer : Doer)
    (config : SegmentPortsDataSourceModel) : DsReadOutput :=
  let state := config
  match c.listSegmentPorts doer state.segmentId [] with
  | (trace, .error msg) =>
      { trace := trace
        errors := [⟨"Unable to Read segment ports for ", msg⟩]
        state := none }
  | (trace, .ok portsResponse) =>
      if portsResponse.statusCode ≠ 200 then
        { trace := trace
          errors := [⟨"Unexpected HTTP error code received for Item",
                      portsResponse.status⟩]
          state := none }
      else
        match ListSegmentPortsResponse.fromJson portsResponse.body with
        | none =>
            { trace := trace
              errors := [⟨"Invalid format received for segment ports",
                          jsonDecodeErrorText⟩]
              state := none }
        | some segmentPorts =>
            let state2 : SegmentPortsDataSourceModel :=
              { segmentId := "", segmentPorts := [] }
            let state3 : SegmentPortsDataSourceModel :=
              { state2 with segmentId := state2.segmentId }
            let state4 : SegmentPortsDataSourceModel :=
              { state3 with
                segmentPorts := segmentPorts.results.map (fun segment =>
                  { addressBindings := segment.addressBindings
                    adminState := segment.adminState
                    attachment := segment.attachment
                    description := segment.description
                    displayName := segment.displayName
                    id := segment.id
                    resourceType := "" }) }
            { trace := trace, errors := [], state := some state4 }

/-- Go struct `provider.segmentPortsDataSource` (its single field is the
stored `*client.Client`, nil at construction). -/
structure SegmentPortsDataSource where
  client : Option Client

/-- Dynamic value arriving as `req.ProviderData`: either an actual
`*client.Client` or a value of some other dynamic type, on which the type
assertion `req.ProviderData.(*client.Client)` fails. -/
inductive ProviderData where
  | clientData (c : Client)
  | otherData

/-- Body of Go `segmentPortsDataSource.Configure`, acting on the receiver it
was handed: nil provider data or a failed type assertion leave the receiver
alone, otherwise the client field is assigned. -/
def segmentPortsDataSource.configureBody (d : SegmentPortsDataSource)
    (providerData : Option ProviderData) : SegmentPortsDataSource :=
  match providerData with
  | none => d
  | some .otherData => d
  | some (.clientData c) => { d with client := some c }

/-- Go method-call semantics for a method declared on a VALUE receiver (as
`segmentPortsDataSource.Configure` is): the callee runs on a copy of the
receiver.  The result pairs the final value of the callee copy with the
variable of the caller, which the call cannot change.  (For a pointer
receiver both components would be the final value of the callee copy.) -/
def valueReceiverCall {α : Type} (body : α → α) (receiver : α) : α × α :=
  (body receiver, receiver)

/-- Inputs to the configuration-resolution pass of
`NsxtIntervlanRoutingProvider.Configure`: the explicit configuration values
(`none` = null; an unknown `nsxt_insecure` was normalised to a known `false`
just above this pass, and unknown host/username/password values aborted with
errors, so every surviving config value is either null or known) and the four
environment variables (`os.Getenv` returns `""` for unset variables). -/
structure ProviderConfigInputs where
  configInsecure : Option Bool
  configHost : Option String
  configUsername : Option String
  configPassword : Option String
  envInsecure : String
  envHostname : String
  envUsername : String
  envPassword : String

/-- Go `types.Bool.String()` for a known boolean value. -/
def goBoolString (b : Bool) : String := if b then "true" else "false"

/-- Warning emitted when the insecure value is missing or empty. -/
def insecureDefaultWarning : Diagnostic :=
  ⟨"Missing NSX-T Manager API Insecure (using default value: false)",
   "The provider is using a default value as there is a missing or empty value for the NSX-T Manager API insecure. " ++
     "Set the insecure value in the configuration or use the NSXT_INSECURE environment variable. " ++
     "If either is already set, ensure the value is not empty."⟩

/-- Warning emitted when the hostname is missing or empty. -/
def hostnameDefaultWarning : Diagnostic :=
  ⟨"Missing NSX-T Manager API Hostname (using default value: 127.0.0.1)",
   "The provider is using a default value as there is a missing or empty value for the NSX-T Manager API hostname. " ++
     "Set the host value in the configuration or use the NSXT_HOSTNAME environment variable. " ++
     "If either is already set, ensure the value is not empty."⟩

/-- Warning emitted when the username is missing or empty. -/
def usernameDefaultWarning : Diagnostic :=
  ⟨"Missing NSX-T API username (using default value: admin)",
   "The provider is using a default value as there is a missing or empty value for the NSX-T API username. " ++
     "Set the username value in the configuration or use the NSXT_USERNAME environment variable. " ++
     "If either is already set, ensure the value is not empty."⟩

/-- Warning emitted when the password is missing or empty (its summary says
"port" in the source). -/
def passwordDefaultWarning : Diagnostic :=
  ⟨"Missing NSX-T API port (using default value: password)",
   "The provider is using a default value as there is a missing or empty value for the NSX-T API password. " ++
     "Set the password value in the configuration or use the NSXT_PASSWORD environment variable. " ++
     "If either is already set, ensure the value is not empty."⟩

/-- Result of the configuration-resolution pass: the four resolved string
values plus the diagnostics it added. -/
structure ResolvedProviderConfig where
  insecure : String
  hostname : String
  username : String
  password : String
  warnings : List Diagnostic
  errors : List Diagnostic

/-- The configuration-resolution pass of
`NsxtIntervlanRoutingProvider.Configure` (provider.go lines 141-204): each
value starts from its environment variable, is overridden by a non-null
configuration value, and, when the result is empty, a warning is added; the
hostname, username and password then fall back to their hard-coded defaults,
while for insecure the assignment of the default is commented out in the
source (`//insecure = "false"`), so the empty value is kept. -/
def resolveProviderConfig (i : ProviderConfigInputs) : ResolvedProviderConfig :=
  let insecure := i.envInsecure
  let hostname := i.envHostname
  let username := i.envUsername
  let password := i.envPassword
  let insecure := match i.configInsecure with
    | some b => goBoolString b
    | none => insecure
  let hostname := match i.configHost with
    | some s => s
    | none => hostname
  let username := match i.configUsername with
    | some s => s
    | none => username
  let password := match i.configPassword with
    | some s => s
    | none => password
  let warnings : List Diagnostic := []
  let warnings := if insecure = "" then warnings ++ [insecureDefaultWarning] else warnings
  let step := if hostname = "" then (warnings ++ [hostnameDefaultWarning], "127.0.0.1")
              else (warnings, hostname)
  let warnings := step.1
  let hostname := step.2
  let step := if username = "" then (warnings ++ [usernameDefaultWarning], "admin")
              else (warnings, username)
  let warnings := step.1
  let username := step.2
  let step := if password = "" then (warnings ++ [passwordDefaultWarning], "password")
              else (warnings, password)
  let warnings := step.1
  let password := step.2
  { insecure := insecure
    hostname := hostname
    username := username
    password := password
    warnings := warnings
    errors := [] }

/-- Go runtime panics that the modelled code can hit. -/
inductive GoPanic where
  | nilPointerDereference

/-- Go `err.Error()` where `err` may be nil: calling `Error()` through a nil
error interface panics with a nil-pointer dereference. -/
def goErrorCall : Option String → Except GoPanic String
  | some msg => .ok msg
  | none => .error .nilPointerDereference

/-- Outcome of `NsxtIntervlanRoutingProvider.Configure` after the login
round trip: diagnostics plus whether the HTTP client was stored into
`resp.DataSourceData` / `resp.ResourceData`. -/
structure ConfigureOutcome where
  errors : List Diagnostic
  clientHanded : Bool

/-- Go handling of the login POST result in
`NsxtIntervlanRoutingProvider.Configure` (provider.go lines 235-277),
starting from `response, err := Client.Do(request)`.  A non-nil `err` is a
fatal diagnostic; on status 200 the body is read, the parsed cookie is
discarded and the client is handed to the adapters; on any other status the
code builds the diagnostic detail with `"NSX-T Client Error: "+err.Error()`,
but `err` is nil on this path (the transport call succeeded), so the call
panics before `AddError` runs. -/
def handleLoginResult (doResult : Except String Response) :
    Except GoPanic ConfigureOutcome :=
  match doResult with
  | .error msg =>
      .ok { errors := [⟨"Unable to Create NSX-T API Client",
                        "An unexpected error occurred when creating the NSX-T API client. " ++
                          "If the error is not clear, please contact the provider developers.\n\n" ++
                          "NSX-T Client Error: " ++ msg⟩]
            clientHanded := false }
  | .ok response =>
      if response.statusCode = 200 then
        .ok { errors := [], clientHanded := true }
      else
        match goErrorCall none with
        | .error p => .error p
        | .ok s =>
            .ok { errors := [⟨"NSX-T API Client returned a non-200 status code",
                              "The NSX-T API Client returned a non-200 status code. The response returned " ++
                                "indicates an error authenticating the client.\n\n" ++
                                "NSX-T Client Error: " ++ s⟩]
                  clientHanded := false }

/-- Constructors of managed resources that exist in the provider package
(`NewSegmentPortResource` is defined in `resource_segment_port.go`). -/
inductive ResourceConstructor where
  | newSegmentPortResource

/-- Constructors of data sources that exist in the provider package. -/
inductive DataSourceConstructor where
  | newSegmentPortsDataSource

/-- Go `NsxtIntervlanRoutingProvider.Resources` (provider.go lines 307-311):
the returned slice is empty; its only would-be entry is commented out
(`//NewExampleResource`), so `NewSegmentPortResource` is never registered. -/
def providerResources : List ResourceConstructor := []

/-- Go `NsxtIntervlanRoutingProvider.DataSources` (provider.go lines
319-323): the single registered constructor is `NewSegmentPortsDataSource`. -/
def providerDataSources : List DataSourceConstructor :=
  [.newSegmentPortsDataSource]

/-- Go `segmentPortsDataSource.Metadata`: the data-source type name appends
`_segment_ports` to the provider type name. -/
def segmentPortsDataSource.typeName (providerTypeName : String) : String :=
  providerTypeName ++ "_segment_ports"

/-- Go `segmentPortResource.Metadata`: the resource type name appends
`_segment_port` to the provider type name. -/
def segmentPortResource.typeName (providerTypeName : String) : String :=
  providerTypeName ++ "_segment_port"

/-- Test on the outermost JSON constructor: is the value an array? -/
def Json.isArr : Json → Bool
  | .arr _ => true
  | _ => false

/-- Spec-side description of one resolution step: the explicit configuration
value when set, otherwise the environment value. -/
def configOverride (configValue : Option String) (envValue : String) : String :=
  configValue.getD envValue

/-- Spec-side description of the default fallback: keep a non-empty value,
replace an empty one by the default. -/
def withDefault (v d : String) : String :=
  if v = "" then d else v

/-- The child-port address binding used in the example configuration shipped
with the repository. -/
def childBindingExample : PortAddressBindingEntry :=
  ⟨"169.254.254.169", "00:50:56:ad:5e:64", "1001"⟩

/-- The child segment port from the example configuration shipped with the
repository (`examples/provider/provider.tf`). -/
def childPortExample : SegmentPort :=
  { addressBindings := childBindingExample
    adminState := "UP"
    attachment :=
      { allocateAddresses := ""
        appId := "Segment1001"
        contextId := "9765bf41-9725-4714-977e-7f7395920de2"
        id := ""
        trafficTag := "1001"
        type := "CHILD" }
    description := "GCVE-PA-VM-ESX-2 Child Port 1001"
    displayName := "GCVE-PA-VM-ESX-2.vmx@a274ac51-88f5-491f-a46f-840d409ce82f"
    id := "a274ac51-88f5-491f-a46f-840d409ce82f"
    resourceType := "SegmentPort" }

/-- Concrete client used by the witnesses. -/
def fixtureClient : Client :=
  { server := "https://nsx.example"
    username := "admin"
    password := "password"
    requestEditors := [] }

/-- Concrete segment port returned by the witness server. -/
def fixturePort : SegmentPort :=
  { addressBindings := PortAddressBindingEntry.zero
    adminState := "UP"
    attachment :=
      { allocateAddresses := ""
        appId := ""
        contextId := ""
        id := "9765bf41-9725-4714-977e-7f7395920de2"
        trafficTag := "1000"
        type := "PARENT" }
    description := "GCVE-PA-VM-ESX-2 Parent Port"
    displayName := "GCVE-PA-VM-ESX-2.vmx@060af2c2-e9ff-4686-866c-c0daab1748d6"
    id := "060af2c2-e9ff-4686-866c-c0daab1748d6"
    resourceType := "SegmentPort" }

/-- Concrete prior state used by the witnesses. -/
def fixturePrior : SegmentPortResourceModel :=
  { segmentId := "4d4c0f0a-6c50-420b-90f1-68fb7585cda4"
    portId := "060af2c2-e9ff-4686-866c-c0daab1748d6"
    segmentPort := SegmentPort.zero }

/-- Witness server behaviour: every request is answered with status 200 and
the JSON encoding of `fixturePort`. -/
def fixtureDoer200 : Doer :=
  fun _ => .ok ⟨200, "200 OK", fixturePort.toJson⟩

/-- Witness server behaviour: every request is answered with status 200 and
an empty body. -/
def fixtureDoerEmpty200 : Doer :=
  fun _ => .ok ⟨200, "200 OK", .null⟩

/-- Witness server behaviour: every request is answered with status 200 and
an empty list-response body. -/
def fixtureDoerEmptyList : Doer :=
  fun _ => .ok ⟨200, "200 OK", .obj [("result_count", .num 0), ("results", .arr [])]⟩

/-- Request editor that always fails, used by the witness of the hook
pipeline property. -/
def alwaysFailingEditor : RequestEditorFn :=
  fun _ => .error "editor rejected the request"

/-- Client with a single registered hook that always fails. -/
def fixtureClientBadEditor : Client :=
  { server := "https://nsx.example"
    username := "admin"
    password := "password"
    requestEditors := [alwaysFailingEditor] }

/-- Concrete data-source configuration used by the witnesses. -/
def fixtureDsConfig : SegmentPortsDataSourceModel :=
  { segmentId := "4d4c0f0a-6c50-420b-90f1-68fb7585cda4", segmentPorts := [] }

/-- Configuration inputs with every explicit value null and every environment
variable unset. -/
def emptyConfigInputs : ProviderConfigInputs :=
  { configInsecure := none
    configHost := none
    configUsername := none
    configPassword := none
    envInsecure := ""
    envHostname := ""
    envUsername := ""
    envPassword := "" }

/-- Running a list of editors split as `xs ++ ys` first runs `xs` and, if no
editor failed, continues with `ys` from the request `xs` produced. -/
theorem runEditors_append (xs ys : List RequestEditorFn) (req : Request) :
    runEditors (xs ++ ys) req =
      match runEditors xs req with
      | .error msg => .error msg
      | .ok req2 => runEditors ys req2 := by
  induction xs generalizing req with
  | nil => rfl
  | cons e rest ih =>
      simp only [List.cons_append, runEditors]
      cases e req with
      | error msg => rfl
      | ok req2 => exact ih req2

/-- Request built by Create/Update for a given client and plan. -/
def plannedPatchRequest (c : Client) (plan : SegmentPortResourceModel) : Request :=
  NewPatchSegmentPortRequest c.server c.username c.password
    ⟨plan.segmentId, plan.portId, plan.segmentPort⟩

/-- C2: the claim asks for the example child-port address-binding list to be
serialized verbatim as a JSON array in the PATCH body.  The code stores a
single `PortAddressBindingEntry` (not a slice) in `client.SegmentPort`, so
the `address_bindings` field of the PATCH body is the JSON object holding the
one triple, and is never a JSON array. -/
theorem c2_address_bindings_encoded_as_object :
    ((NewPatchSegmentPortRequest "https://nsx.example" "admin" "password"
        ⟨"2bfe8abf-4161-4788-9cbe-c444e9bf7454",
         "a274ac51-88f5-491f-a46f-840d409ce82f", childPortExample⟩).body.map
        (fun b => b.lookupField "address_bindings")) =
      some (some (Json.obj
        [("ip_address", Json.str "169.254.254.169"),
         ("mac_address", Json.str "00:50:56:ad:5e:64"),
         ("vlan_id", Json.str "1001")])) ∧
    (((SegmentPort.toJson childPortExample).lookupField "address_bindings").map
        Json.isArr) = some false :=
  ⟨rfl, rfl⟩

/-- C4: the DELETE request builder attaches no basic-auth credentials, while
the GET, List and PATCH builders each attach the given username/password
pair (the client operations pass `c.Username`/`c.Password` to them). -/
theorem c4_delete_lacks_basic_auth (server user pass segment_id port_id : String)
    (body : PatchSegmentPortRequest) :
    (NewDeleteSegmentPortRequest server segment_id port_id).basicAuth = none ∧
    (NewGetSegmentPortRequest server user pass segment_id port_id).basicAuth =
      some (user, pass) ∧
    (NewListSegmentPortsRequest server user pass segment_id).basicAuth =
      some (user, pass) ∧
    (NewPatchSegmentPortRequest server user pass body).basicAuth =
      some (user, pass) :=
  ⟨rfl, rfl, rfl, rfl⟩

/-- C5: at a login response with status 403 and no transport error, the
non-200 branch of `Configure` evaluates `err.Error()` on the nil error
returned by `Client.Do`, so the code panics with a nil-pointer dereference
instead of adding the fatal configuration-error diagnostic the claim
describes. -/
theorem c5_non200_login_panics :
    handleLoginResult (.ok ⟨403, "403 Forbidden", .null⟩) =
      .error .nilPointerDereference :=
  rfl

/-- C8: the provider registers no managed resource constructor at all (the
sole slice entry is commented out, even though `NewSegmentPortResource` and
its full implementation exist), and registers exactly one data source
constructor, `NewSegmentPortsDataSource`. -/
theorem c8_registry_contents :
    providerResources = [] ∧
    providerResources.length = 0 ∧
    providerDataSources = [.newSegmentPortsDataSource] ∧
    providerDataSources.length = 1 :=
  ⟨rfl, rfl, rfl, rfl⟩

/-- C10: `segmentPortsDataSource.Configure` is declared on a value receiver,
so the assignment `d.client = client` lands on the callee copy (second
conjunct) while the caller-visible data source keeps its previous client
field (first conjunct); in particular a data source whose client is nil
still has a nil client after any Configure call (third conjunct). -/
theorem c10_configure_value_receiver (d : SegmentPortsDataSource) (c : Client)
    (pd : Option ProviderData) :
    (valueReceiverCall (fun x => segmentPortsDataSource.configureBody x pd) d).2.client =
      d.client ∧
    (valueReceiverCall
        (fun x => segmentPortsDataSource.configureBody x (some (.clientData c))) d).1.client =
      some c ∧
    (valueReceiverCall (fun x => segmentPortsDataSource.configureBody x pd)
        ⟨none⟩).2.client = none :=
  ⟨rfl, rfl, rfl⟩

/-- C7 counterexample: with every configuration value null and every
environment variable unset, the resolved insecure value is the empty string,
not the claimed hard-coded default false (its default assignment is
commented out in the source), while the other three settings do receive
their defaults; all four still emit their warnings. -/
theorem c7_insecure_not_defaulted :
    (resolveProviderConfig emptyConfigInputs).insecure = "" ∧
    ((resolveProviderConfig emptyConfigInputs).insecure == "false") = false ∧
    (resolveProviderConfig emptyConfigInputs).warnings =
      [insecureDefaultWarning, hostnameDefaultWarning,
       usernameDefaultWarning, passwordDefaultWarning] ∧
    (resolveProviderConfig emptyConfigInputs).hostname = "127.0.0.1" ∧
    (resolveProviderConfig emptyConfigInputs).username = "admin" ∧
    (resolveProviderConfig emptyConfigInputs).password = "password" :=
  ⟨rfl, rfl, rfl, rfl, rfl, rfl⟩

/-- C1: for every stored state and every outcome of the Get call, the
resource Read operation reports one fatal diagnostic and leaves the state
unchanged on a non-nil error; removes the resource, with no diagnostic, on
status 404; reports one fatal diagnostic on any other non-200 status; and on
status 200 decodes the body into a SegmentPort and persists it as the new
state with segment_id and port_id carried over from the prior state. -/
theorem c1_read_contract (c : Client) (doer : Doer)
    (prior : SegmentPortResourceModel) :
    (∀ trace msg,
        c.getSegmentPort doer prior.segmentId prior.portId [] = (trace, .error msg) →
        (segmentPortResource.read c doer prior).state = .kept ∧
        (segmentPortResource.read c doer prior).errors.length = 1) ∧
    (∀ trace resp,
        c.getSegmentPort doer prior.segmentId prior.portId [] = (trace, .ok resp) →
        resp.statusCode = 404 →
        (segmentPortResource.read c doer prior).state = .removed ∧
        (segmentPortResource.read c doer prior).errors = []) ∧
    (∀ trace resp,
        c.getSegmentPort doer prior.segmentId prior.portId [] = (trace, .ok resp) →
        resp.statusCode ≠ 404 → resp.statusCode ≠ 200 →
        (segmentPortResource.read c doer prior).state = .kept ∧
        (segmentPortResource.read c doer prior).errors.length = 1) ∧
    (∀ trace resp sp,
        c.getSegmentPort doer prior.segmentId prior.portId [] = (trace, .ok resp) →
        resp.statusCode = 200 →
        SegmentPort.fromJson resp.body = some sp →
        (segmentPortResource.read c doer prior).state =
          .set ⟨prior.segmentId, prior.portId, sp⟩ ∧
        (segmentPortResource.read c doer prior).errors = []) := by
  refine ⟨?_, ?_, ?_, ?_⟩
  · intro trace msg h
    simp [segmentPortResource.read, h]
  · intro trace resp h h404
    simp [segmentPortResource.read, h, h404]
  · intro trace resp h h404 h200
    simp [segmentPortResource.read, h, h404, h200]
  · intro trace resp sp h h200 hdec
    simp [segmentPortResource.read, h, h200, hdec]

/-- Witness for C1, exercising the status-200 arm at a concrete client,
server behaviour and prior state. -/
theorem c1_read_contract_witness :
    (segmentPortResource.read fixtureClient fixtureDoer200 fixturePrior).state =
      .set ⟨fixturePrior.segmentId, fixturePrior.portId, fixturePort⟩ ∧
    (segmentPortResource.read fixtureClient fixtureDoer200 fixturePrior).errors = [] :=
  (c1_read_contract fixtureClient fixtureDoer200 fixturePrior).2.2.2
    [NewGetSegmentPortRequest fixtureClient.server fixtureClient.username
      fixtureClient.password fixturePrior.segmentId fixturePrior.portId]
    ⟨200, "200 OK", fixturePort.toJson⟩ fixturePort rfl rfl rfl

/-- C3: the Update operation is extensionally identical to the Create
operation; with no registered request hooks both dispatch exactly one PATCH
request whose body is the full JSON-encoded desired SegmentPort, treat a
non-nil error or a status other than 200 as fatal (one diagnostic, state
unchanged), and on status 200 persist the plan as the new state while having
dispatched no further request. -/
theorem c3_update_equals_create (c : Client) (doer : Doer)
    (plan : SegmentPortResourceModel) :
    segmentPortResource.update c doer plan = segmentPortResource.create c doer plan ∧
    (c.requestEditors = [] →
      ((segmentPortResource.create c doer plan).trace = [plannedPatchRequest c plan] ∧
        (plannedPatchRequest c plan).method = "PATCH" ∧
        (plannedPatchRequest c plan).body = some plan.segmentPort.toJson) ∧
      (∀ msg, doer (plannedPatchRequest c plan) = .error msg →
        (segmentPortResource.create c doer plan).errors.length = 1 ∧
        (segmentPortResource.create c doer plan).state = .kept) ∧
      (∀ resp, doer (plannedPatchRequest c plan) = .ok resp →
        resp.statusCode ≠ 200 →
        (segmentPortResource.create c doer plan).errors.length = 1 ∧
        (segmentPortResource.create c doer plan).state = .kept) ∧
      (∀ resp, doer (plannedPatchRequest c plan) = .ok resp →
        resp.statusCode = 200 →
        (segmentPortResource.create c doer plan).errors = [] ∧
        (segmentPortResource.create c doer plan).state = .set plan)) := by
  constructor
  · rfl
  · intro h
    have hpatch : c.patchSegmentPort doer
        ⟨plan.segmentId, plan.portId, plan.segmentPort⟩ [] =
        ([plannedPatchRequest c plan], doer (plannedPatchRequest c plan)) := by
      simp [Client.patchSegmentPort, Client.applyEditors, h, runEditors,
        plannedPatchRequest]
    refine ⟨?_, ?_, ?_, ?_⟩
    · cases hd : doer (plannedPatchRequest c plan) with
      | error msg =>
          refine ⟨?_, rfl, rfl⟩
          simp [segmentPortResource.create, hpatch, hd]
      | ok resp =>
          refine ⟨?_, rfl, rfl⟩
          by_cases h200 : resp.statusCode = 200 <;>
            simp [segmentPortResource.create, hpatch, hd, h200]
    · intro msg hd
      simp [segmentPortResource.create, hpatch, hd]
    · intro resp hd h200
      simp [segmentPortResource.create, hpatch, hd, h200]
    · intro resp hd h200
      simp [segmentPortResource.create, hpatch, hd, h200]

/-- Witness for C3, exercising the status-200 arm at a concrete client,
server behaviour and plan. -/
theorem c3_update_equals_create_witness :
    segmentPortResource.update fixtureClient fixtureDoerEmpty200 fixturePrior =
      segmentPortResource.create fixtureClient fixtureDoerEmpty200 fixturePrior ∧
    (segmentPortResource.create fixtureClient fixtureDoerEmpty200 fixturePrior).errors = [] ∧
    (segmentPortResource.create fixtureClient fixtureDoerEmpty200 fixturePrior).state =
      .set fixturePrior :=
  ⟨(c3_update_equals_create fixtureClient fixtureDoerEmpty200 fixturePrior).1,
   ((c3_update_equals_create fixtureClient fixtureDoerEmpty200 fixturePrior).2 rfl).2.2.2
     ⟨200, "200 OK", .null⟩ rfl rfl⟩

/-- C6: `applyEditors` runs the registered hooks, then the per-call hooks, in
order (first conjunct: it equals one pass over the concatenated list); a hook
error at any position is returned as soon as the hooks before it succeeded,
whatever hooks follow (second conjunct); and `PatchSegmentPort` propagates
such an error without handing any request to the dispatcher, while on
all-hooks success it dispatches exactly the edited request (third and fourth
conjuncts). -/
theorem c6_editor_pipeline (c : Client) (doer : Doer)
    (body : PatchSegmentPortRequest) (reqEditors pre post : List RequestEditorFn)
    (e : RequestEditorFn) (req r : Request) (msg : String) :
    (c.applyEditors req reqEditors = runEditors (c.requestEditors ++ reqEditors) req) ∧
    (runEditors pre req = .ok r → e r = .error msg →
      runEditors (pre ++ e :: post) req = .error msg) ∧
    (runEditors (c.requestEditors ++ reqEditors)
        (NewPatchSegmentPortRequest c.server c.username c.password body) = .error msg →
      c.patchSegmentPort doer body reqEditors = ([], .error msg)) ∧
    (runEditors (c.requestEditors ++ reqEditors)
        (NewPatchSegmentPortRequest c.server c.username c.password body) = .ok r →
      c.patchSegmentPort doer body reqEditors = ([r], doer r)) := by
  have happly : ∀ (add : List RequestEditorFn) (q : Request),
      c.applyEditors q add = runEditors (c.requestEditors ++ add) q := by
    intro add q
    rw [runEditors_append]
    rfl
  refine ⟨happly reqEditors req, ?_, ?_, ?_⟩
  · intro h1 h2
    rw [runEditors_append, h1]
    simp [runEditors, h2]
  · intro h
    simp [Client.patchSegmentPort, happly, h]
  · intro h
    simp [Client.patchSegmentPort, happly, h]

/-- Witness for C6: a client whose single registered hook always fails makes
`PatchSegmentPort` return that error without dispatching anything. -/
theorem c6_editor_pipeline_witness :
    fixtureClientBadEditor.patchSegmentPort fixtureDoerEmpty200
      ⟨fixturePrior.segmentId, fixturePrior.portId, fixturePrior.segmentPort⟩ [] =
      ([], .error "editor rejected the request") :=
  (c6_editor_pipeline fixtureClientBadEditor fixtureDoerEmpty200
      ⟨fixturePrior.segmentId, fixturePrior.portId, fixturePrior.segmentPort⟩
      [] [] [] alwaysFailingEditor
      (NewDeleteSegmentPortRequest "" "" "") (NewDeleteSegmentPortRequest "" "" "")
      "editor rejected the request").2.2.1 rfl

set_option maxHeartbeats 1000000 in
/-- C7 as amended: hostname, username and password resolve as explicit
configuration first, environment variable second, hard-coded default third,
each fallback to a default adding a non-fatal warning; the insecure setting
resolves as explicit-then-environment, and when that is empty only the
warning is emitted — the default false is never assigned (the assignment is
commented out in the source), so the value stays empty.  No resolution path
adds an error. -/
theorem c7_resolution_amended (i : ProviderConfigInputs) :
    (resolveProviderConfig i).hostname =
      withDefault (configOverride i.configHost i.envHostname) "127.0.0.1" ∧
    (resolveProviderConfig i).username =
      withDefault (configOverride i.configUsername i.envUsername) "admin" ∧
    (resolveProviderConfig i).password =
      withDefault (configOverride i.configPassword i.envPassword) "password" ∧
    (resolveProviderConfig i).insecure =
      configOverride (i.configInsecure.map goBoolString) i.envInsecure ∧
    (resolveProviderConfig i).warnings =
      (if configOverride (i.configInsecure.map goBoolString) i.envInsecure = ""
        then [insecureDefaultWarning] else []) ++
      (if configOverride i.configHost i.envHostname = ""
        then [hostnameDefaultWarning] else []) ++
      (if configOverride i.configUsername i.envUsername = ""
        then [usernameDefaultWarning] else []) ++
      (if configOverride i.configPassword i.envPassword = ""
        then [passwordDefaultWarning] else []) ∧
    (resolveProviderConfig i).errors = [] := by
  obtain ⟨ci, ch, cu, cp, ei, eh, eu, ep⟩ := i
  cases ci <;> cases ch <;> cases cu <;> cases cp <;>
    simp only [resolveProviderConfig, configOverride, withDefault, Option.getD,
      Option.map] <;>
    split_ifs <;> simp

/-- C9: whenever the List call comes back with status 200 and a body that
decodes, the state persisted by the segment_ports data source carries the
empty string as segment_id (the model is zeroed and the field then assigned
from itself), not the configured segment id, while the results are carried
over. -/
theorem c9_datasource_resets_segment_id (c : Client) (doer : Doer)
    (config : SegmentPortsDataSourceModel) (trace : List Request)
    (resp : Response) (lr : ListSegmentPortsResponse)
    (h1 : c.listSegmentPorts doer config.segmentId [] = (trace, .ok resp))
    (h2 : resp.statusCode = 200)
    (h3 : ListSegmentPortsResponse.fromJson resp.body = some lr) :
    ∃ st, (segmentPortsDataSource.read c doer config).state = some st ∧
      st.segmentId = "" ∧
      st.segmentPorts.length = lr.results.length := by
  refine ⟨{ segmentId := ""
            segmentPorts := lr.results.map (fun segment =>
              { addressBindings := segment.addressBindings
                adminState := segment.adminState
                attachment := segment.attachment
                description := segment.description
                displayName := segment.displayName
                id := segment.id
                resourceType := "" }) }, ?_, rfl, by simp⟩
  simp [segmentPortsDataSource.read, h1, h2, h3]

/-- Witness for C9: a configured segment id and an empty 200 list response
lead to a persisted state whose segment_id is the empty string. -/
theorem c9_datasource_resets_segment_id_witness :
    ∃ st, (segmentPortsDataSource.read fixtureClient fixtureDoerEmptyList
        fixtureDsConfig).state = some st ∧
      st.segmentId = "" ∧
      st.segmentPorts.length = 0 :=
  c9_datasource_resets_segment_id fixtureClient fixtureDoerEmptyList fixtureDsConfig
    [NewListSegmentPortsRequest fixtureClient.server fixtureClient.username
      fixtureClient.password fixtureDsConfig.segmentId]
    ⟨200, "200 OK", .obj [("result_count", .num 0), ("results", .arr [])]⟩
    ⟨0, []⟩ rfl rfl rfl

/-- Witness for C4 at concrete server, credentials and identifiers. -/
theorem c4_delete_lacks_basic_auth_witness :
    (NewDeleteSegmentPortRequest "https://nsx.example"
        "4d4c0f0a-6c50-420b-90f1-68fb7585cda4"
        "060af2c2-e9ff-4686-866c-c0daab1748d6").basicAuth = none ∧
    (NewGetSegmentPortRequest "https://nsx.example" "admin" "password"
        "4d4c0f0a-6c50-420b-90f1-68fb7585cda4"
        "060af2c2-e9ff-4686-866c-c0daab1748d6").basicAuth =
      some ("admin", "password") :=
  ⟨(c4_delete_lacks_basic_auth "https://nsx.example" "admin" "password"
      "4d4c0f0a-6c50-420b-90f1-68fb7585cda4" "060af2c2-e9ff-4686-866c-c0daab1748d6"
      ⟨"4d4c0f0a-6c50-420b-90f1-68fb7585cda4", "060af2c2-e9ff-4686-866c-c0daab1748d6",
        SegmentPort.zero⟩).1,
   (c4_delete_lacks_basic_auth "https://nsx.example" "admin" "password"
      "4d4c0f0a-6c50-420b-90f1-68fb7585cda4" "060af2c2-e9ff-4686-866c-c0daab1748d6"
      ⟨"4d4c0f0a-6c50-420b-90f1-68fb7585cda4", "060af2c2-e9ff-4686-866c-c0daab1748d6",
        SegmentPort.zero⟩).2.1⟩

/-- Witness for the amended C7 at the all-unset input. -/
theorem c7_resolution_amended_witness :
    (resolveProviderConfig emptyConfigInputs).errors = [] ∧
    (resolveProviderConfig emptyConfigInputs).hostname =
      withDefault (configOverride emptyConfigInputs.configHost
        emptyConfigInputs.envHostname) "127.0.0.1" :=
  ⟨(c7_resolution_amended emptyConfigInputs).2.2.2.2.2,
   (c7_resolution_amended emptyConfigInputs).1⟩

/-- Witness for C10 at a concrete data source and client. -/
theorem c10_configure_value_receiver_witness :
    (valueReceiverCall
        (fun x => segmentPortsDataSource.configureBody x
          (some (.clientData fixtureClient))) ⟨none⟩).2.client = none :=
  (c10_configure_value_receiver ⟨none⟩ fixtureClient
    (some (.clientData fixtureClient))).2.2

end NsxtIvr
